/-
Verification of the advisory skip-list matching core of `audit.py`
(softdevteam/sd_audit).

The embedding models, directly from the source:
  * `SKIP_ADVISORIES` — the configured registry, an insertion-ordered
    mapping from 3-tuple rules to expiry dates (Python dicts preserve
    insertion order, so the registry is a list of key/value pairs);
  * `UNMATCHED_SKIP_ADVISORIES` — the mutable set of not-yet-used rule
    keys, modelled as the list of its elements (all claims about it are
    membership/subset facts, so the order carried by the list is inert);
  * `should_skip_advisory` — the matcher.  Python exceptions
    (`set.remove` raising `KeyError` on a missing element) are modelled
    with `Except Unit`; the `print` side effects are modelled by a
    `Note` value carried in the result;
  * `process_json` — per-scan aggregation over the deduplicated problem
    set;
  * the tail of `__main__` — final report lines and the process exit
    code.

Tuple fields are `Option String`: `none` is Python `None` (the dummy
sentinel used when the scanner reports no advisory metadata) and
`some s` is the string `s`; the wildcard is the literal string `"*"`,
i.e. `some "*"`.  `date.today()` inside `should_skip_advisory` is an
ambient read of the system clock; a pure model must take the value read
as an argument, so the matcher here receives `today` explicitly.
-/
import Mathlib

/-- A field of a problem tuple or rule key: `none` models Python `None`,
`some s` a string.  The wildcard is the literal string `"*"`. -/
abbrev TupField := Option String

/-- A 3-tuple `(repo-name, problem-package, rustsec-id)`; used both for
problem tuples and for the keys of `SKIP_ADVISORIES`. -/
abbrev Rule := TupField × TupField × TupField

/-- `datetime.date`: comparison in Python is lexicographic on
`(year, month, day)`. -/
structure Date where
  year : Nat
  month : Nat
  day : Nat
deriving DecidableEq, Repr

/-- Python `a <= b` on `datetime.date`. -/
def Date.le (a b : Date) : Bool :=
  if a.year ≠ b.year then decide (a.year < b.year)
  else if a.month ≠ b.month then decide (a.month < b.month)
  else decide (a.day ≤ b.day)

/-- One field of the wildcard-matching step of `should_skip_advisory`
(lines 73–78): the copy of the problem field is overwritten with `"*"`
when the rule field is `"*"`, then compared to the rule field. -/
def fieldMatch (ruleField probField : TupField) : Bool :=
  decide ((if ruleField = some "*" then (some "*" : TupField) else probField) = ruleField)

/-- `tuple(match_list) == skip_tup` after the per-index overwrite loop:
all three fields must match. -/
def wildcardMatch (skipTup advTup : Rule) : Bool :=
  fieldMatch skipTup.1 advTup.1 &&
    fieldMatch skipTup.2.1 advTup.2.1 &&
    fieldMatch skipTup.2.2 advTup.2.2

/-- Python dict lookup `d[k]` / `k in d` on an insertion-ordered
association list (keys are unique in a dict, so first match is the
binding). -/
def dictLookup (d : List (Rule × Date)) (k : Rule) : Option Date :=
  match d with
  | [] => none
  | (r, e) :: rest => if r = k then some e else dictLookup rest k

/-- The wildcard scan of `should_skip_advisory` (lines 72–82): iterate
the registry in order and stop (`break`) at the first rule whose
wildcard match succeeds, yielding that rule and its expiry. -/
def findWildcard (d : List (Rule × Date)) (advTup : Rule) : Option (Rule × Date) :=
  match d with
  | [] => none
  | (r, e) :: rest => if wildcardMatch r advTup then some (r, e) else findWildcard rest advTup

/-- The note printed by `should_skip_advisory`: nothing (unmatched), the
"has expired" note, or the "was skipped" note.  Both notes carry the
package and advisory-id fields of the problem tuple (line 87). -/
inductive Note where
  | noNote
  | expired (pkg advId : TupField)
  | skipped (pkg advId : TupField)
deriving DecidableEq, Repr

/-- Lines 84–93 of `should_skip_advisory`: the common tail once an
expiry has been found.  `expiry <= date.today()` means the skip has
expired: print the expiry note and return `False`; otherwise print the
skipped note and return `True`. -/
def skipWithExpiry (advTup : Rule) (expiry today : Date) (unmatched : List Rule) :
    Bool × Note × List Rule :=
  if Date.le expiry today then (false, .expired advTup.2.1 advTup.2.2, unmatched)
  else (true, .skipped advTup.2.1 advTup.2.2, unmatched)

/-- `should_skip_advisory` (lines 62–93).  The registry and the current
unmatched-set contents are threaded explicitly; `today` is the value the
source reads from `date.today()` at line 88.  The exact-match branch
performs `UNMATCHED_SKIP_ADVISORIES.remove(adv_tup)` unguarded, which
raises `KeyError` (modelled `.error ()`) when the key is absent; the
wildcard branch guards its removal with a membership test (line 79). -/
def should_skip_advisory (skipAdvisories : List (Rule × Date)) (today : Date)
    (unmatched : List Rule) (advTup : Rule) : Except Unit (Bool × Note × List Rule) :=
  match dictLookup skipAdvisories advTup with
  | some expiry =>
      if advTup ∈ unmatched then
        .ok (skipWithExpiry advTup expiry today (unmatched.erase advTup))
      else
        .error ()
  | none =>
      match findWildcard skipAdvisories advTup with
      | some (skipTup, expiry) =>
          .ok (skipWithExpiry advTup expiry today
            (if skipTup ∈ unmatched then unmatched.erase skipTup else unmatched))
      | none => .ok (false, .noNote, unmatched)

/-- The configured `SKIP_ADVISORIES` table (lines 46–50), in source
order. -/
def SKIP_ADVISORIES : List (Rule × Date) :=
  [((some "*", some "chrono", some "RUSTSEC-2020-0159"), ⟨2023, 3, 1⟩),
   ((some "*", some "time", some "RUSTSEC-2020-0071"), ⟨2023, 3, 1⟩),
   ((some "yk", some "atty", some "RUSTSEC-2021-0145"), ⟨2023, 6, 1⟩)]

/-- The keys of a registry, in order. -/
def registryKeys (d : List (Rule × Date)) : List Rule :=
  d.map (fun p => p.1)

/-- `UNMATCHED_SKIP_ADVISORIES = set(SKIP_ADVISORIES.keys())`
(line 52): the initial unmatched set holds every configured key. -/
def UNMATCHED_SKIP_ADVISORIES : List Rule :=
  registryKeys SKIP_ADVISORIES

/-- The expiry the matcher associates to a problem tuple, if any rule
matches it: the exact key's expiry when the tuple is a key, otherwise
the first wildcard match's expiry. -/
def matchedExpiry (skipAdvisories : List (Rule × Date)) (advTup : Rule) : Option Date :=
  match dictLookup skipAdvisories advTup with
  | some e => some e
  | none => (findWildcard skipAdvisories advTup).map (fun p => p.2)

/-- The pure verdict of `should_skip_advisory` — its boolean return
value, which depends only on the registry, the date read and the tuple,
never on the unmatched set. -/
def skipVerdict (skipAdvisories : List (Rule × Date)) (today : Date) (advTup : Rule) : Bool :=
  match matchedExpiry skipAdvisories advTup with
  | some e => !(Date.le e today)
  | none => false

/-- The note `should_skip_advisory` emits, equally independent of the
unmatched set. -/
def skipNote (skipAdvisories : List (Rule × Date)) (today : Date) (advTup : Rule) : Note :=
  match matchedExpiry skipAdvisories advTup with
  | some e =>
      if Date.le e today then .expired advTup.2.1 advTup.2.2
      else .skipped advTup.2.1 advTup.2.2
  | none => .noNote

/-- The scanner output consumed by `process_json` (lines 195–216): the
`warnings` object maps kinds to lists of warnings, each carrying an
`advisory` that is either `None` or has `package` and `id` fields; the
`vulnerabilities.list` array is the same shape.  Only the fields the
function reads are modelled. -/
structure AuditJson where
  warnings : List (List (Option (String × String)))
  vulnerabilities : List (Option (String × String))

/-- Lines 202–207 / 211–216: the problem tuple added for one advisory
record — `(repo_name, package, id)`, or the dummy `(repo_name, None,
None)` when the advisory field is `None`. -/
def advisoryTuple (repoName : String) (adv : Option (String × String)) : Rule :=
  match adv with
  | some (pkg, advId) => (some repoName, some pkg, some advId)
  | none => (some repoName, none, none)

/-- All problem tuples a scan inserts into the `problems` set, with
multiplicity, in insertion order: first every warning of every kind,
then every vulnerability. -/
def rawProblems (repoName : String) (js : AuditJson) : List Rule :=
  (js.warnings.map (fun kind => kind.map (advisoryTuple repoName))).flatten ++
    js.vulnerabilities.map (advisoryTuple repoName)

/-- The `problems` set of `process_json` (line 197): Python-set
semantics collapse duplicates, so the model deduplicates the insertion
list. -/
def problemsOf (repoName : String) (js : AuditJson) : List Rule :=
  (rawProblems repoName js).dedup

/-- The classification loop of `process_json` (lines 218–220): fold
`should_skip_advisory` over the problem tuples, clearing `ret` whenever
a tuple is not skipped, threading the unmatched set, and propagating a
raised `KeyError`. -/
def processProblems (skipAdvisories : List (Rule × Date)) (today : Date) :
    List Rule → Bool → List Rule → Except Unit (Bool × List Rule)
  | [], ret, unmatched => .ok (ret, unmatched)
  | t :: ts, ret, unmatched =>
    match should_skip_advisory skipAdvisories today unmatched t with
    | .error e => .error e
    | .ok (b, _, unmatched1) => processProblems skipAdvisories today ts (ret && b) unmatched1

/-- `process_json` (lines 195–222): extract the problem set and run the
classification loop starting from `ret = True`. -/
def process_json (skipAdvisories : List (Rule × Date)) (today : Date)
    (unmatched : List Rule) (repoName : String) (js : AuditJson) :
    Except Unit (Bool × List Rule) :=
  processProblems skipAdvisories today (problemsOf repoName js) true unmatched

/-- A sequence of classification calls threading only the unmatched
set, as the whole run performs across scans. -/
def classifySeq (skipAdvisories : List (Rule × Date)) (today : Date) :
    List Rule → List Rule → Except Unit (List Rule)
  | [], unmatched => .ok unmatched
  | t :: ts, unmatched =>
    match should_skip_advisory skipAdvisories today unmatched t with
    | .error e => .error e
    | .ok (_, _, unmatched1) => classifySeq skipAdvisories today ts unmatched1

/-- The output blocks the tail of `__main__` can print (lines
257–265). -/
inductive ReportLine where
  | unmatchedWarning (rules : List Rule)
  | problemsReport (repos : List String)
deriving DecidableEq, Repr

/-- The tail of `__main__` (lines 257–266): print the unmatched-skips
warning when that set is non-empty, print the problematic-repos block
and exit 1 when the list is non-empty, otherwise fall off the end of
the script (exit status 0). -/
def finalReport (unmatched : List Rule) (problematic : List String) :
    List ReportLine × Nat :=
  let warnLines : List ReportLine :=
    if unmatched.isEmpty then [] else [.unmatchedWarning unmatched]
  let (problemLines, exitCode) : List ReportLine × Nat :=
    if problematic.isEmpty then ([], 0) else ([.problemsReport problematic], 1)
  (warnLines ++ problemLines, exitCode)

/-- Python `a <= a` on dates. -/
theorem Date.le_refl (d : Date) : Date.le d d = true := by
  unfold Date.le
  simp

/-- `skipWithExpiry` written as an explicit triple. -/
theorem skipWithExpiry_eq (t : Rule) (e today : Date) (u : List Rule) :
    skipWithExpiry t e today u =
      (!(Date.le e today),
       if Date.le e today then Note.expired t.2.1 t.2.2 else Note.skipped t.2.1 t.2.2,
       u) := by
  unfold skipWithExpiry
  cases hle : Date.le e today <;> simp [hle]

/-- A key that `dictLookup` resolves is one of the registry's keys. -/
theorem dictLookup_mem (d : List (Rule × Date)) (k : Rule) (e : Date)
    (h : dictLookup d k = some e) : k ∈ registryKeys d := by
  induction d with
  | nil => simp [dictLookup] at h
  | cons p rest ih =>
    obtain ⟨r, e1⟩ := p
    rw [dictLookup] at h
    by_cases hr : r = k
    · simp [registryKeys, hr.symm]
    · rw [if_neg hr] at h
      have := ih h
      simp [registryKeys] at this ⊢
      exact Or.inr this

/-- The rule returned by the wildcard scan is a registry key. -/
theorem findWildcard_mem (d : List (Rule × Date)) (t r : Rule) (e : Date)
    (h : findWildcard d t = some (r, e)) : r ∈ registryKeys d := by
  induction d with
  | nil => simp [findWildcard] at h
  | cons p rest ih =>
    obtain ⟨r1, e1⟩ := p
    rw [findWildcard] at h
    by_cases hm : wildcardMatch r1 t = true
    · rw [if_pos hm] at h
      injection h with h2
      simp only [Prod.mk.injEq] at h2
      simp [registryKeys, h2.1]
    · rw [if_neg hm] at h
      have := ih h
      simp [registryKeys] at this ⊢
      exact Or.inr this

/-- The wildcard scan returns the first matching rule: the registry
splits into an unmatched prefix, the returned binding and a suffix. -/
theorem findWildcard_first (d : List (Rule × Date)) (t r : Rule) (e : Date)
    (h : findWildcard d t = some (r, e)) :
    wildcardMatch r t = true ∧
      ∃ l1 l2, d = l1 ++ (r, e) :: l2 ∧ ∀ p ∈ l1, wildcardMatch p.1 t = false := by
  induction d with
  | nil => simp [findWildcard] at h
  | cons p rest ih =>
    obtain ⟨r1, e1⟩ := p
    rw [findWildcard] at h
    by_cases hm : wildcardMatch r1 t = true
    · rw [if_pos hm] at h
      injection h with h2
      simp only [Prod.mk.injEq] at h2
      obtain ⟨hr, he⟩ := h2
      subst hr; subst he
      exact ⟨hm, [], rest, rfl, by simp⟩
    · rw [if_neg hm] at h
      obtain ⟨hmatch, l1, l2, hsplit, hpre⟩ := ih h
      refine ⟨hmatch, (r1, e1) :: l1, l2, by simp [hsplit], ?_⟩
      intro p hp
      rcases List.mem_cons.1 hp with hp1 | hp1
      · subst hp1
        exact Bool.eq_false_iff.2 hm
      · exact hpre p hp1

/-- A successful classification returns exactly the pure verdict and
the pure note: neither depends on the unmatched set. -/
theorem should_skip_ok_parts (sa : List (Rule × Date)) (today : Date) (s : List Rule)
    (t : Rule) (b : Bool) (n : Note) (s1 : List Rule)
    (h : should_skip_advisory sa today s t = .ok (b, n, s1)) :
    b = skipVerdict sa today t ∧ n = skipNote sa today t := by
  unfold should_skip_advisory at h
  split at h
  · rename_i e hd
    split at h
    · rename_i hm
      rw [skipWithExpiry_eq] at h
      injection h with h2
      simp only [Prod.mk.injEq] at h2
      obtain ⟨hb, hn, _⟩ := h2
      constructor
      · rw [← hb]
        unfold skipVerdict matchedExpiry
        rw [hd]
      · rw [← hn]
        unfold skipNote matchedExpiry
        rw [hd]
    · simp at h
  · rename_i hd
    split at h
    · rename_i r e hw
      rw [skipWithExpiry_eq] at h
      injection h with h2
      simp only [Prod.mk.injEq] at h2
      obtain ⟨hb, hn, _⟩ := h2
      constructor
      · rw [← hb]
        unfold skipVerdict matchedExpiry
        rw [hd, hw]
        rfl
      · rw [← hn]
        unfold skipNote matchedExpiry
        rw [hd, hw]
        rfl
    · rename_i hw
      injection h with h2
      simp only [Prod.mk.injEq] at h2
      obtain ⟨hb, hn, _⟩ := h2
      constructor
      · rw [← hb]
        unfold skipVerdict matchedExpiry
        rw [hd, hw]
        rfl
      · rw [← hn]
        unfold skipNote matchedExpiry
        rw [hd, hw]
        rfl

/-- A successful classification shrinks the unmatched set by at most
one element, and any removed element is a registry key. -/
theorem should_skip_ok_state (sa : List (Rule × Date)) (today : Date) (s : List Rule)
    (t : Rule) (b : Bool) (n : Note) (s1 : List Rule)
    (h : should_skip_advisory sa today s t = .ok (b, n, s1)) :
    s1 ⊆ s ∧ (s1 = s ∨ ∃ k, k ∈ s ∧ k ∈ registryKeys sa ∧ s1 = s.erase k) := by
  unfold should_skip_advisory at h
  split at h
  · rename_i e hd
    split at h
    · rename_i hm
      rw [skipWithExpiry_eq] at h
      injection h with h2
      simp only [Prod.mk.injEq] at h2
      obtain ⟨_, _, hs⟩ := h2
      subst hs
      exact ⟨List.erase_subset t s, Or.inr ⟨t, hm, dictLookup_mem sa t e hd, rfl⟩⟩
    · simp at h
  · rename_i hd
    split at h
    · rename_i r e hw
      rw [skipWithExpiry_eq] at h
      injection h with h2
      simp only [Prod.mk.injEq] at h2
      obtain ⟨_, _, hs⟩ := h2
      subst hs
      by_cases hr : r ∈ s
      · rw [if_pos hr]
        exact ⟨List.erase_subset r s, Or.inr ⟨r, hr, findWildcard_mem sa t r e hw, rfl⟩⟩
      · rw [if_neg hr]
        exact ⟨fun x hx => hx, Or.inl rfl⟩
    · rename_i hw
      injection h with h2
      simp only [Prod.mk.injEq] at h2
      obtain ⟨_, _, hs⟩ := h2
      subst hs
      exact ⟨fun x hx => hx, Or.inl rfl⟩

/-- The classification loop of `process_json` computes the conjunction
of the pure verdicts of all problems, starting from the incoming
`ret`. -/
theorem processProblems_ok_bool (sa : List (Rule × Date)) (today : Date) (ts : List Rule) :
    ∀ (ret : Bool) (s : List Rule) (b : Bool) (s1 : List Rule),
      processProblems sa today ts ret s = .ok (b, s1) →
      b = (ret && ts.all (skipVerdict sa today)) := by
  induction ts with
  | nil =>
    intro ret s b s1 h
    unfold processProblems at h
    injection h with h2
    simp only [Prod.mk.injEq] at h2
    simp [← h2.1]
  | cons t ts ih =>
    intro ret s b s1 h
    unfold processProblems at h
    split at h
    · simp at h
    · rename_i b1 n1 s2 heq
      have hb1 := (should_skip_ok_parts sa today s t b1 n1 s2 heq).1
      have hrec := ih (ret && b1) s2 b s1 h
      rw [hrec, hb1]
      simp [Bool.and_assoc]

/-- A successful run of classification calls never grows the unmatched
set. -/
theorem classifySeq_subset (sa : List (Rule × Date)) (today : Date) (ts : List Rule) :
    ∀ (s s1 : List Rule), classifySeq sa today ts s = .ok s1 → s1 ⊆ s := by
  induction ts with
  | nil =>
    intro s s1 h
    injection h with h2
    subst h2
    exact fun x hx => hx
  | cons t ts ih =>
    intro s s1 h
    unfold classifySeq at h
    split at h
    · simp at h
    · rename_i b1 n1 s2 heq
      have h1 := (should_skip_ok_state sa today s t b1 n1 s2 heq).1
      exact List.Subset.trans (ih s2 s1 h) h1

/-- Claim C1: for every problem tuple present verbatim as a key of the
registry, classification selects that exact rule — it takes that rule's
expiry and erases exactly that key from the unused set — and the result
is the same whatever wildcard rules the registry holds (the wildcard
scan is only reached when no exact key equals the tuple): any registry
giving the same exact binding classifies identically.  The hypothesis
`t ∈ s` says the exact rule has not been used yet (true at run start;
see C3 for the re-use behaviour). -/
theorem C1_exact_beats_wildcard (sa : List (Rule × Date)) (today : Date) (s : List Rule)
    (t : Rule) (e : Date) (hk : dictLookup sa t = some e) (hu : t ∈ s) :
    should_skip_advisory sa today s t = .ok (skipWithExpiry t e today (s.erase t)) ∧
    ∀ sa2 : List (Rule × Date), dictLookup sa2 t = some e →
      should_skip_advisory sa2 today s t = should_skip_advisory sa today s t := by
  have key : ∀ sa3 : List (Rule × Date), dictLookup sa3 t = some e →
      should_skip_advisory sa3 today s t = .ok (skipWithExpiry t e today (s.erase t)) := by
    intro sa3 hk3
    unfold should_skip_advisory
    simp only [hk3]
    rw [if_pos hu]
  exact ⟨key sa hk, fun sa2 hk2 => (key sa2 hk2).trans (key sa hk).symm⟩

/-- Witness for C1: a registry whose all-wildcard rule also matches the
problem still classifies by the exact rule — its (future) expiry is
used and only the exact key is erased. -/
theorem C1_exact_beats_wildcard_witness :
    should_skip_advisory
        [((some "*", some "*", some "*"), ⟨2099, 1, 1⟩),
         ((some "r", some "p", some "i"), ⟨2030, 5, 5⟩)]
        ⟨2024, 1, 1⟩
        [(some "*", some "*", some "*"), (some "r", some "p", some "i")]
        (some "r", some "p", some "i") =
      .ok (true, Note.skipped (some "p") (some "i"),
        [(some "*", some "*", some "*")]) :=
  (C1_exact_beats_wildcard
      [((some "*", some "*", some "*"), ⟨2099, 1, 1⟩),
       ((some "r", some "p", some "i"), ⟨2030, 5, 5⟩)]
      ⟨2024, 1, 1⟩
      [(some "*", some "*", some "*"), (some "r", some "p", some "i")]
      (some "r", some "p", some "i")
      ⟨2030, 5, 5⟩ rfl (by decide)).1

/-- Claim C2: with no exact key equal to the tuple, a rule matches iff
each of its three fields is the literal `"*"` or equals the problem's
field (so a `None` problem field matches only `"*"` or a `None` rule
field, never a concrete string); the selected rule is the first match
in registry order, and only its usage credit is consumed. -/
theorem C2_wildcard_first_match (sa : List (Rule × Date)) (today : Date) (s : List Rule)
    (t : Rule) (hno : dictLookup sa t = none) :
    (∀ r : Rule, wildcardMatch r t = true ↔
        ((r.1 = some "*" ∨ r.1 = t.1) ∧ (r.2.1 = some "*" ∨ r.2.1 = t.2.1) ∧
          (r.2.2 = some "*" ∨ r.2.2 = t.2.2))) ∧
    (fieldMatch (some "*") none = true ∧ fieldMatch none none = true ∧
      ∀ c : String, c ≠ "*" → fieldMatch (some c) none = false) ∧
    (∀ (r : Rule) (e : Date), findWildcard sa t = some (r, e) →
        (∃ l1 l2, sa = l1 ++ (r, e) :: l2 ∧ ∀ p ∈ l1, wildcardMatch p.1 t = false) ∧
        should_skip_advisory sa today s t =
          .ok (skipWithExpiry t e today (if r ∈ s then s.erase r else s))) := by
  have hfield : ∀ rf pf : TupField, fieldMatch rf pf = true ↔ (rf = some "*" ∨ rf = pf) := by
    intro rf pf
    unfold fieldMatch
    by_cases h : rf = some "*"
    · simp [h]
    · simp [h, eq_comm]
  refine ⟨?_, ⟨?_, ?_, ?_⟩, ?_⟩
  · intro r
    unfold wildcardMatch
    rw [Bool.and_eq_true, Bool.and_eq_true, hfield, hfield, hfield]
    tauto
  · rw [hfield]
    exact Or.inl rfl
  · rw [hfield]
    exact Or.inr rfl
  · intro c hc
    rw [Bool.eq_false_iff, Ne, hfield]
    simp [hc]
  · intro r e hw
    refine ⟨(findWildcard_first sa t r e hw).2, ?_⟩
    unfold should_skip_advisory
    simp only [hno, hw]

/-- Witness for C2: two wildcard rules both match the problem; the
first in registry order is selected, its (future) expiry used, and only
its key is erased from the unused set. -/
theorem C2_wildcard_first_match_witness :
    should_skip_advisory
        [((some "*", some "p", some "i"), ⟨2030, 1, 1⟩),
         ((some "*", some "*", some "*"), ⟨2099, 1, 1⟩)]
        ⟨2024, 1, 1⟩
        [(some "*", some "p", some "i"), (some "*", some "*", some "*")]
        (some "r", some "p", some "i") =
      .ok (true, Note.skipped (some "p") (some "i"),
        [(some "*", some "*", some "*")]) :=
  ((C2_wildcard_first_match
      [((some "*", some "p", some "i"), ⟨2030, 1, 1⟩),
       ((some "*", some "*", some "*"), ⟨2099, 1, 1⟩)]
      ⟨2024, 1, 1⟩
      [(some "*", some "p", some "i"), (some "*", some "*", some "*")]
      (some "r", some "p", some "i") rfl).2.2
    (some "*", some "p", some "i") ⟨2030, 1, 1⟩ rfl).2

/-- Counterexample to claim C3 as stated: re-classifying the problem
tuple that equals the already-used exact key `("yk","atty",
"RUSTSEC-2021-0145")` does not succeed — the unguarded
`UNMATCHED_SKIP_ADVISORIES.remove(adv_tup)` at line 68 raises
`KeyError` (modelled `.error ()`), so usage marking is not idempotent
on the exact-match path. -/
theorem C3_mark_used_counterexample :
    should_skip_advisory SKIP_ADVISORIES ⟨2023, 1, 1⟩ UNMATCHED_SKIP_ADVISORIES
        (some "yk", some "atty", some "RUSTSEC-2021-0145") =
      .ok (true, Note.skipped (some "atty") (some "RUSTSEC-2021-0145"),
        [(some "*", some "chrono", some "RUSTSEC-2020-0159"),
         (some "*", some "time", some "RUSTSEC-2020-0071")]) ∧
    should_skip_advisory SKIP_ADVISORIES ⟨2023, 1, 1⟩
        [(some "*", some "chrono", some "RUSTSEC-2020-0159"),
         (some "*", some "time", some "RUSTSEC-2020-0071")]
        (some "yk", some "atty", some "RUSTSEC-2021-0145") =
      .error () :=
  ⟨rfl, rfl⟩

/-- Claim C3 as amended: usage marking is idempotent on the wildcard
path only — classifying a problem whose matching wildcard rule is
already used succeeds and leaves the unused set unchanged (the removal
at line 80 is guarded by a membership test), while classifying a
problem equal to an already-used exact key raises `KeyError` (line 68
removes unguarded). -/
theorem C3_mark_used_amended (sa : List (Rule × Date)) (today : Date) (s : List Rule)
    (t : Rule) :
    (∀ e : Date, dictLookup sa t = some e → t ∉ s →
        should_skip_advisory sa today s t = .error ()) ∧
    (∀ (r : Rule) (e : Date), dictLookup sa t = none → findWildcard sa t = some (r, e) →
        r ∉ s →
        should_skip_advisory sa today s t = .ok (skipWithExpiry t e today s)) := by
  constructor
  · intro e hk hm
    unfold should_skip_advisory
    simp only [hk]
    rw [if_neg hm]
  · intro r e hk hw hr
    unfold should_skip_advisory
    simp only [hk, hw]
    rw [if_neg hr]

/-- Witness for the amended C3: with the chrono rule already used, a
second problem matching it classifies successfully and the unused set
is unchanged; with the atty exact key already used, re-classifying its
tuple raises. -/
theorem C3_mark_used_amended_witness :
    should_skip_advisory SKIP_ADVISORIES ⟨2023, 1, 1⟩
        [(some "*", some "chrono", some "RUSTSEC-2020-0159"),
         (some "*", some "time", some "RUSTSEC-2020-0071")]
        (some "yk", some "atty", some "RUSTSEC-2021-0145") = .error () ∧
    should_skip_advisory SKIP_ADVISORIES ⟨2023, 1, 1⟩
        [(some "*", some "time", some "RUSTSEC-2020-0071"),
         (some "yk", some "atty", some "RUSTSEC-2021-0145")]
        (some "r2", some "chrono", some "RUSTSEC-2020-0159") =
      .ok (true, Note.skipped (some "chrono") (some "RUSTSEC-2020-0159"),
        [(some "*", some "time", some "RUSTSEC-2020-0071"),
         (some "yk", some "atty", some "RUSTSEC-2021-0145")]) :=
  ⟨(C3_mark_used_amended SKIP_ADVISORIES ⟨2023, 1, 1⟩
      [(some "*", some "chrono", some "RUSTSEC-2020-0159"),
       (some "*", some "time", some "RUSTSEC-2020-0071")]
      (some "yk", some "atty", some "RUSTSEC-2021-0145")).1
        ⟨2023, 6, 1⟩ rfl (by decide),
   (C3_mark_used_amended SKIP_ADVISORIES ⟨2023, 1, 1⟩
      [(some "*", some "time", some "RUSTSEC-2020-0071"),
       (some "yk", some "atty", some "RUSTSEC-2021-0145")]
      (some "r2", some "chrono", some "RUSTSEC-2020-0159")).2
        (some "*", some "chrono", some "RUSTSEC-2020-0159") ⟨2023, 3, 1⟩ rfl rfl (by decide)⟩

/-- Claim C4: a matched rule whose expiry is not in the future still
has its key removed from the unused set (the removal precedes the
comparison, so it happens in the expired case too), but the problem is
reported as a failure: the returned flag is `false` exactly as in the
unmatched case, and only the emitted note (`expired` versus no note)
distinguishes the two. -/
theorem C4_expired_still_fails (sa : List (Rule × Date)) (today : Date) (s : List Rule)
    (t : Rule) :
    (∀ e : Date, dictLookup sa t = some e → Date.le e today = true → t ∈ s →
        should_skip_advisory sa today s t =
          .ok (false, Note.expired t.2.1 t.2.2, s.erase t)) ∧
    (∀ (r : Rule) (e : Date), dictLookup sa t = none → findWildcard sa t = some (r, e) →
        Date.le e today = true →
        should_skip_advisory sa today s t =
          .ok (false, Note.expired t.2.1 t.2.2, if r ∈ s then s.erase r else s)) ∧
    (dictLookup sa t = none → findWildcard sa t = none →
        should_skip_advisory sa today s t = .ok (false, Note.noNote, s)) := by
  refine ⟨?_, ?_, ?_⟩
  · intro e hk hle hm
    unfold should_skip_advisory
    simp only [hk]
    rw [if_pos hm, skipWithExpiry_eq]
    simp [hle]
  · intro r e hk hw hle
    unfold should_skip_advisory
    simp only [hk, hw]
    rw [skipWithExpiry_eq]
    simp [hle]
  · intro hk hw
    unfold should_skip_advisory
    simp only [hk, hw]

/-- Witness for C4: on 2023-04-01 the chrono rule (expiry 2023-03-01)
has expired; its key is still erased from the unused set, yet the
result flag is `false` with the expired note. -/
theorem C4_expired_still_fails_witness :
    should_skip_advisory SKIP_ADVISORIES ⟨2023, 4, 1⟩ UNMATCHED_SKIP_ADVISORIES
        (some "repoX", some "chrono", some "RUSTSEC-2020-0159") =
      .ok (false, Note.expired (some "chrono") (some "RUSTSEC-2020-0159"),
        [(some "*", some "time", some "RUSTSEC-2020-0071"),
         (some "yk", some "atty", some "RUSTSEC-2021-0145")]) :=
  (C4_expired_still_fails SKIP_ADVISORIES ⟨2023, 4, 1⟩ UNMATCHED_SKIP_ADVISORIES
      (some "repoX", some "chrono", some "RUSTSEC-2020-0159")).2.1
    (some "*", some "chrono", some "RUSTSEC-2020-0159") ⟨2023, 3, 1⟩ rfl rfl rfl

/-- Claim C5: expiry boundary.  For a matched rule with expiry `e`,
classifying on the day `e` itself yields the expired failure (flag
`false`, expired note), never an active skip; and a successful
classification returns `true` exactly when the expiry is strictly
after the current date. -/
theorem C5_expiry_boundary (sa : List (Rule × Date)) (s : List Rule) (t : Rule)
    (e : Date) (hm : matchedExpiry sa t = some e) :
    (∀ (b : Bool) (n : Note) (s1 : List Rule),
        should_skip_advisory sa e s t = .ok (b, n, s1) →
        b = false ∧ n = Note.expired t.2.1 t.2.2) ∧
    (∀ (today : Date) (b : Bool) (n : Note) (s1 : List Rule),
        should_skip_advisory sa today s t = .ok (b, n, s1) →
        (b = true ↔ Date.le e today = false)) := by
  constructor
  · intro b n s1 h
    obtain ⟨hb, hn⟩ := should_skip_ok_parts sa e s t b n s1 h
    constructor
    · rw [hb]
      unfold skipVerdict
      rw [hm]
      simp [Date.le_refl]
    · rw [hn]
      unfold skipNote
      rw [hm]
      simp [Date.le_refl]
  · intro today b n s1 h
    have hb := (should_skip_ok_parts sa today s t b n s1 h).1
    rw [hb]
    unfold skipVerdict
    rw [hm]
    cases hle : Date.le e today <;> simp [hle]

/-- Witness for C5: the atty rule expires on 2023-06-01; classifying on
that very day gives the expired failure, and on 2023-05-31 (strictly
before expiry) the skip flag is `true`. -/
theorem C5_expiry_boundary_witness :
    should_skip_advisory SKIP_ADVISORIES ⟨2023, 6, 1⟩ UNMATCHED_SKIP_ADVISORIES
        (some "yk", some "atty", some "RUSTSEC-2021-0145") =
      .ok (false, Note.expired (some "atty") (some "RUSTSEC-2021-0145"),
        [(some "*", some "chrono", some "RUSTSEC-2020-0159"),
         (some "*", some "time", some "RUSTSEC-2020-0071")]) ∧
    (false = false ∧ Note.expired (some "atty") (some "RUSTSEC-2021-0145") =
        Note.expired (some "atty") (some "RUSTSEC-2021-0145")) ∧
    (true = true ↔ Date.le ⟨2023, 6, 1⟩ ⟨2023, 5, 31⟩ = false) :=
  ⟨rfl,
   (C5_expiry_boundary SKIP_ADVISORIES UNMATCHED_SKIP_ADVISORIES
       (some "yk", some "atty", some "RUSTSEC-2021-0145") ⟨2023, 6, 1⟩ rfl).1
     false (Note.expired (some "atty") (some "RUSTSEC-2021-0145"))
     [(some "*", some "chrono", some "RUSTSEC-2020-0159"),
      (some "*", some "time", some "RUSTSEC-2020-0071")] rfl,
   (C5_expiry_boundary SKIP_ADVISORIES UNMATCHED_SKIP_ADVISORIES
       (some "yk", some "atty", some "RUSTSEC-2021-0145") ⟨2023, 6, 1⟩ rfl).2
     ⟨2023, 5, 31⟩ true (Note.skipped (some "atty") (some "RUSTSEC-2021-0145"))
     [(some "*", some "chrono", some "RUSTSEC-2020-0159"),
      (some "*", some "time", some "RUSTSEC-2020-0071")] rfl⟩

/-- Claim C6: a problem tuple matching no rule — no exact key and no
wildcard match — classifies to the failing result with no note, and
the unused set is returned unchanged: nothing is marked used. -/
theorem C6_unmatched_no_mutation (sa : List (Rule × Date)) (today : Date) (s : List Rule)
    (t : Rule) (h1 : dictLookup sa t = none) (h2 : findWildcard sa t = none) :
    should_skip_advisory sa today s t = .ok (false, Note.noNote, s) := by
  unfold should_skip_advisory
  simp only [h1, h2]

/-- Witness for C6: the spec's own example problem
`("reponame","libfoo","RUSTSEC-2099-0001")` matches nothing in the
configured table: failure, and the whole unused set survives. -/
theorem C6_unmatched_no_mutation_witness :
    should_skip_advisory SKIP_ADVISORIES ⟨2023, 1, 1⟩ UNMATCHED_SKIP_ADVISORIES
        (some "reponame", some "libfoo", some "RUSTSEC-2099-0001") =
      .ok (false, Note.noNote, UNMATCHED_SKIP_ADVISORIES) :=
  C6_unmatched_no_mutation SKIP_ADVISORIES ⟨2023, 1, 1⟩ UNMATCHED_SKIP_ADVISORIES
    (some "reponame", some "libfoo", some "RUSTSEC-2099-0001") rfl rfl

/-- Claim C7: a scan that runs to completion passes (`ret = true`) iff
every distinct problem tuple has a passing verdict; the problem set
collapses duplicates (membership agrees with the raw insertion list
and the set is duplicate-free); and a scan with no problems passes
with the unused set untouched. -/
theorem C7_scan_pass_iff (sa : List (Rule × Date)) (today : Date) (s : List Rule)
    (repoName : String) (js : AuditJson) (b : Bool) (s1 : List Rule)
    (h : process_json sa today s repoName js = .ok (b, s1)) :
    (b = true ↔ ∀ t ∈ problemsOf repoName js, skipVerdict sa today t = true) ∧
    (∀ t : Rule, t ∈ problemsOf repoName js ↔ t ∈ rawProblems repoName js) ∧
    (problemsOf repoName js).Nodup ∧
    (rawProblems repoName js = [] → b = true ∧ s1 = s) := by
  refine ⟨?_, fun t => List.mem_dedup, List.nodup_dedup _, ?_⟩
  · have hb := processProblems_ok_bool sa today (problemsOf repoName js) true s b s1 h
    rw [hb]
    simp [List.all_eq_true]
  · intro hraw
    unfold process_json problemsOf at h
    rw [hraw] at h
    simp only [List.dedup_nil] at h
    unfold processProblems at h
    injection h with h2
    simp only [Prod.mk.injEq] at h2
    exact ⟨h2.1.symm, h2.2.symm⟩

/-- Witness for C7: a scan reporting the chrono advisory three times
(twice among warnings, once among vulnerabilities) collapses to one
problem tuple, which the chrono rule skips on 2023-02-01: the scan
passes. -/
theorem C7_scan_pass_iff_witness :
    (true = true ↔ ∀ t ∈ problemsOf "reponame"
        ⟨[[some ("chrono", "RUSTSEC-2020-0159"), some ("chrono", "RUSTSEC-2020-0159")]],
         [some ("chrono", "RUSTSEC-2020-0159")]⟩,
        skipVerdict SKIP_ADVISORIES ⟨2023, 2, 1⟩ t = true) ∧
    (∀ t : Rule, t ∈ problemsOf "reponame"
        ⟨[[some ("chrono", "RUSTSEC-2020-0159"), some ("chrono", "RUSTSEC-2020-0159")]],
         [some ("chrono", "RUSTSEC-2020-0159")]⟩ ↔
      t ∈ rawProblems "reponame"
        ⟨[[some ("chrono", "RUSTSEC-2020-0159"), some ("chrono", "RUSTSEC-2020-0159")]],
         [some ("chrono", "RUSTSEC-2020-0159")]⟩) ∧
    (problemsOf "reponame"
        ⟨[[some ("chrono", "RUSTSEC-2020-0159"), some ("chrono", "RUSTSEC-2020-0159")]],
         [some ("chrono", "RUSTSEC-2020-0159")]⟩).Nodup ∧
    (rawProblems "reponame"
        ⟨[[some ("chrono", "RUSTSEC-2020-0159"), some ("chrono", "RUSTSEC-2020-0159")]],
         [some ("chrono", "RUSTSEC-2020-0159")]⟩ = [] →
      true = true ∧
        [(some "*", some "time", some "RUSTSEC-2020-0071"),
         (some "yk", some "atty", some "RUSTSEC-2021-0145")] = UNMATCHED_SKIP_ADVISORIES) :=
  C7_scan_pass_iff SKIP_ADVISORIES ⟨2023, 2, 1⟩ UNMATCHED_SKIP_ADVISORIES "reponame"
    ⟨[[some ("chrono", "RUSTSEC-2020-0159"), some ("chrono", "RUSTSEC-2020-0159")]],
     [some ("chrono", "RUSTSEC-2020-0159")]⟩
    true
    [(some "*", some "time", some "RUSTSEC-2020-0071"),
     (some "yk", some "atty", some "RUSTSEC-2021-0145")]
    rfl

/-- Claim C8: the process exit status produced by the tail of
`__main__` is `0` iff the failing-repository list is empty and `1`
otherwise, and it is identical whatever the unused-exceptions set is —
that diagnostic only adds report lines. -/
theorem C8_exit_code (unmatched : List Rule) (problematic : List String) :
    ((finalReport unmatched problematic).2 = 0 ↔ problematic = []) ∧
    (problematic ≠ [] → (finalReport unmatched problematic).2 = 1) ∧
    (∀ u2 : List Rule, (finalReport unmatched problematic).2 = (finalReport u2 problematic).2) := by
  cases problematic with
  | nil =>
    exact ⟨by simp [finalReport], by simp, fun u2 => by simp [finalReport]⟩
  | cons a l =>
    exact ⟨by simp [finalReport], fun _ => by simp [finalReport], fun u2 => by simp [finalReport]⟩

/-- Counterexample to claim C9 as stated: the verdict of
`should_skip_advisory` depends on the value read from `date.today()`
at line 88 — with problem, registry and unused set all identical, a
clock reading of 2023-02-01 skips the chrono advisory while 2023-04-01
fails it.  The source takes no caller-supplied date: the matcher reads
the ambient clock itself, so two runs with identical explicit inputs
need not classify identically. -/
theorem C9_clock_read_counterexample :
    should_skip_advisory SKIP_ADVISORIES ⟨2023, 2, 1⟩ UNMATCHED_SKIP_ADVISORIES
        (some "reponame", some "chrono", some "RUSTSEC-2020-0159") =
      .ok (true, Note.skipped (some "chrono") (some "RUSTSEC-2020-0159"),
        [(some "*", some "time", some "RUSTSEC-2020-0071"),
         (some "yk", some "atty", some "RUSTSEC-2021-0145")]) ∧
    should_skip_advisory SKIP_ADVISORIES ⟨2023, 4, 1⟩ UNMATCHED_SKIP_ADVISORIES
        (some "reponame", some "chrono", some "RUSTSEC-2020-0159") =
      .ok (false, Note.expired (some "chrono") (some "RUSTSEC-2020-0159"),
        [(some "*", some "time", some "RUSTSEC-2020-0071"),
         (some "yk", some "atty", some "RUSTSEC-2021-0145")]) :=
  ⟨rfl, rfl⟩

/-- Claim C9 as amended: classification is a deterministic function of
the problem, the registry and the date value the matcher reads from
`date.today()`; holding that reading fixed, the verdict and the note
are moreover independent of the mutable unused-set state. -/
theorem C9_deterministic_given_clock (sa : List (Rule × Date)) (today : Date) (t : Rule)
    (s1 s2 : List Rule) (r1 r2 : Bool × Note × List Rule)
    (h1 : should_skip_advisory sa today s1 t = .ok r1)
    (h2 : should_skip_advisory sa today s2 t = .ok r2) :
    r1.1 = r2.1 ∧ r1.2.1 = r2.2.1 := by
  obtain ⟨hb1, hn1⟩ := should_skip_ok_parts sa today s1 t r1.1 r1.2.1 r1.2.2 h1
  obtain ⟨hb2, hn2⟩ := should_skip_ok_parts sa today s2 t r2.1 r2.2.1 r2.2.2 h2
  exact ⟨hb1.trans hb2.symm, hn1.trans hn2.symm⟩

/-- Witness for the amended C9: the same problem classified from a
fresh unused set and from an already-drained one gets the same verdict
and note. -/
theorem C9_deterministic_given_clock_witness :
    should_skip_advisory SKIP_ADVISORIES ⟨2023, 2, 1⟩
        [(some "*", some "chrono", some "RUSTSEC-2020-0159")]
        (some "r9", some "chrono", some "RUSTSEC-2020-0159") =
      .ok (true, Note.skipped (some "chrono") (some "RUSTSEC-2020-0159"), []) ∧
    should_skip_advisory SKIP_ADVISORIES ⟨2023, 2, 1⟩ []
        (some "r9", some "chrono", some "RUSTSEC-2020-0159") =
      .ok (true, Note.skipped (some "chrono") (some "RUSTSEC-2020-0159"), []) ∧
    (true = true ∧ Note.skipped (some "chrono") (some "RUSTSEC-2020-0159") =
        Note.skipped (some "chrono") (some "RUSTSEC-2020-0159")) :=
  ⟨rfl, rfl,
   C9_deterministic_given_clock SKIP_ADVISORIES ⟨2023, 2, 1⟩
     (some "r9", some "chrono", some "RUSTSEC-2020-0159")
     [(some "*", some "chrono", some "RUSTSEC-2020-0159")] []
     (true, Note.skipped (some "chrono") (some "RUSTSEC-2020-0159"), [])
     (true, Note.skipped (some "chrono") (some "RUSTSEC-2020-0159"), [])
     rfl rfl⟩

/-- Claim C10: one classification call never grows the unused set and
removes at most one key from it, any removed key being a key of the
configured table (which classification never modifies: the registry is
read-only input to the matcher); consequently, after any successful
sequence of classification calls the unused set is contained in the
starting set and, when started from a subset of the table's keys,
remains a subset of them. -/
theorem C10_registry_invariant (sa : List (Rule × Date)) (today : Date) :
    (∀ (t : Rule) (s : List Rule) (b : Bool) (n : Note) (s1 : List Rule),
        should_skip_advisory sa today s t = .ok (b, n, s1) →
        s1 ⊆ s ∧ (s1 = s ∨ ∃ k, k ∈ s ∧ k ∈ registryKeys sa ∧ s1 = s.erase k)) ∧
    (∀ (ts : List Rule) (s s1 : List Rule), classifySeq sa today ts s = .ok s1 →
        s1 ⊆ s ∧ (s ⊆ registryKeys sa → s1 ⊆ registryKeys sa)) := by
  refine ⟨fun t s b n s1 h => should_skip_ok_state sa today s t b n s1 h, ?_⟩
  intro ts s s1 h
  have hsub := classifySeq_subset sa today ts s s1 h
  exact ⟨hsub, fun hk => List.Subset.trans hsub hk⟩

/-- Witness for C10: classifying the atty problem erases exactly its
key; a two-problem sequence from the full key set stays inside the key
set. -/
theorem C10_registry_invariant_witness :
    ([(some "*", some "chrono", some "RUSTSEC-2020-0159"),
      (some "*", some "time", some "RUSTSEC-2020-0071")] ⊆ UNMATCHED_SKIP_ADVISORIES ∧
      ([(some "*", some "chrono", some "RUSTSEC-2020-0159"),
        (some "*", some "time", some "RUSTSEC-2020-0071")] = UNMATCHED_SKIP_ADVISORIES ∨
        ∃ k, k ∈ UNMATCHED_SKIP_ADVISORIES ∧ k ∈ registryKeys SKIP_ADVISORIES ∧
          [(some "*", some "chrono", some "RUSTSEC-2020-0159"),
           (some "*", some "time", some "RUSTSEC-2020-0071")] =
            UNMATCHED_SKIP_ADVISORIES.erase k)) ∧
    ([(some "*", some "time", some "RUSTSEC-2020-0071")] ⊆ UNMATCHED_SKIP_ADVISORIES ∧
      (UNMATCHED_SKIP_ADVISORIES ⊆ registryKeys SKIP_ADVISORIES →
        [(some "*", some "time", some "RUSTSEC-2020-0071")] ⊆ registryKeys SKIP_ADVISORIES)) :=
  ⟨(C10_registry_invariant SKIP_ADVISORIES ⟨2023, 1, 1⟩).1
      (some "yk", some "atty", some "RUSTSEC-2021-0145") UNMATCHED_SKIP_ADVISORIES
      true (Note.skipped (some "atty") (some "RUSTSEC-2021-0145"))
      [(some "*", some "chrono", some "RUSTSEC-2020-0159"),
       (some "*", some "time", some "RUSTSEC-2020-0071")] rfl,
   (C10_registry_invariant SKIP_ADVISORIES ⟨2023, 1, 1⟩).2
      [(some "yk", some "atty", some "RUSTSEC-2021-0145"),
       (some "rX", some "chrono", some "RUSTSEC-2020-0159")]
      UNMATCHED_SKIP_ADVISORIES
      [(some "*", some "time", some "RUSTSEC-2020-0071")] rfl⟩

/-- Witness for C8: one failing repository gives exit status 1
whatever the unused set holds; no failing repository gives 0. -/
theorem C8_exit_code_witness :
    (((finalReport UNMATCHED_SKIP_ADVISORIES ["repoA"]).2 = 0 ↔ ["repoA"] = ([] : List String)) ∧
      ((["repoA"] : List String) ≠ [] → (finalReport UNMATCHED_SKIP_ADVISORIES ["repoA"]).2 = 1) ∧
      (∀ u2 : List Rule, (finalReport UNMATCHED_SKIP_ADVISORIES ["repoA"]).2 =
        (finalReport u2 ["repoA"]).2)) ∧
    (finalReport UNMATCHED_SKIP_ADVISORIES []).2 = 0 :=
  ⟨C8_exit_code UNMATCHED_SKIP_ADVISORIES ["repoA"],
   (C8_exit_code UNMATCHED_SKIP_ADVISORIES []).1.2 rfl⟩
